import Mathlib

/-!
Verification of the Mari-Fit generation service and start screen.

The definitions below are a shallow embedding of `src/services/geminiService.ts`
and `src/components/StartScreen.tsx`:

* JavaScript strings become `String`; optional fields (`x?`) become `Option`.
* JavaScript truthiness on strings ("" is falsy) is written out explicitly.
* `throw new Error(msg)` becomes `Except.error e` for a structured error `e`
  whose `message` function reproduces the thrown message text exactly.
* The external generation endpoint is a parameter
  `api : GenRequest → GenerateContentResponse`; each service operation returns
  its result together with the list of generation requests it issued, so that
  "issues exactly one call" / "rejects before issuing any call" are statable.
* `dataUrl.split(',')` and the lazy regex `/:(.*?);/` (whose `.` does not match
  a newline) are modelled character by character on `String.data`.
-/

namespace MariFit

/-- One inline-data blob inside a response part (`inlineData` in the SDK). -/
structure InlineData where
  mimeType : String
  data : String
deriving DecidableEq, Repr

/-- One content part of a candidate: optional inline image data, optional text. -/
structure ResponsePart where
  inlineData : Option InlineData
  text : Option String
deriving DecidableEq, Repr

/-- The `content` object of a candidate, with its optional `parts` array. -/
structure Content where
  parts : Option (List ResponsePart)
deriving DecidableEq, Repr

/-- One generated candidate: optional content and an optional finish reason. -/
structure Candidate where
  content : Option Content
  finishReason : Option String
deriving DecidableEq, Repr

/-- Top-level prompt feedback with its optional block reason and message. -/
structure PromptFeedback where
  blockReason : Option String
  blockReasonMessage : Option String
deriving DecidableEq, Repr

/-- The response shape used by `handleApiResponse`: optional prompt feedback,
optional candidate list, optional top-level text. -/
structure GenerateContentResponse where
  promptFeedback : Option PromptFeedback
  candidates : Option (List Candidate)
  text : Option String
deriving DecidableEq, Repr

/-- JavaScript truthiness of an optional string: present and nonempty. -/
def optStrTruthy : Option String → Bool
  | some s => s != ""
  | none => false

/-- Structured rendering of every `throw new Error(...)` site in
`geminiService.ts`; `GenError.message` reproduces the message strings. -/
inductive GenError where
  | blocked (blockReason : String) (blockReasonMessage : Option String)
  | interrupted (finishReason : String)
  | noImage (textFeedback : Option String)
  | invalidDataUrl
  | badMime
  | notInitialized
deriving DecidableEq, Repr

/-- The exact message text thrown at each error site of the source. -/
def GenError.message : GenError → String
  | .blocked r m =>
      "Request was blocked. Reason: " ++ r ++ ". " ++ m.getD ""
  | .interrupted r =>
      "Image generation stopped unexpectedly. Reason: " ++ r ++
        ". This often relates to safety settings."
  | .noImage (some t) =>
      "The AI model did not return an image. The model responded with text: \"" ++
        t ++ "\""
  | .noImage none =>
      "The AI model did not return an image. This can happen due to safety filters or if the request is too complex. Please try a different image."
  | .invalidDataUrl => "Invalid data URL"
  | .badMime => "Could not parse MIME type from data URL"
  | .notInitialized =>
      "Gemini API is not initialized. Make sure the API_KEY environment variable is set."

instance {e a : Type} [DecidableEq e] [DecidableEq a] :
    DecidableEq (Except e a) := fun x y =>
  match x, y with
  | Except.ok v, Except.ok w =>
    if h : v = w then isTrue (by rw [h]) else isFalse (by simp [h])
  | Except.error v, Except.error w =>
    if h : v = w then isTrue (by rw [h]) else isFalse (by simp [h])
  | Except.ok _, Except.error _ => isFalse (by simp)
  | Except.error _, Except.ok _ => isFalse (by simp)

/-- `msg` includes `sub` as a contiguous substring (byte-wise on the
character list). -/
def strIncludes (s sub : String) : Prop := sub.data <:+: s.data

instance (s sub : String) : Decidable (strIncludes s sub) := by
  unfold strIncludes; infer_instance

/-- JavaScript `s.split(sep)` for a one-character separator, on char lists. -/
def splitChar (sep : Char) : List Char → List (List Char)
  | [] => [[]]
  | c :: rest =>
    if c = sep then [] :: splitChar sep rest
    else
      match splitChar sep rest with
      | [] => [[c]]
      | h :: t => (c :: h) :: t

/-- The lazy capture of `/:(.*?);/` once a `:` has been consumed: the
characters up to the first `;`, failing at end of input or at a newline
(`.` does not match a newline). -/
def captureUpToSemi : List Char → Option (List Char)
  | [] => none
  | c :: rest =>
    if c = ';' then some []
    else if c = '\n' then none
    else (captureUpToSemi rest).map (fun l => c :: l)

/-- Leftmost match of `/:(.*?);/`: scan for the first `:` from which a capture
up to a `;` succeeds, returning that capture. -/
def matchColonSemi : List Char → Option (List Char)
  | [] => none
  | c :: rest =>
    if c = ':' then
      match captureUpToSemi rest with
      | some cap => some cap
      | none => matchColonSemi rest
    else matchColonSemi rest

/-- The `{ mimeType, data }` record returned by `dataUrlToParts`. -/
structure MimeParts where
  mimeType : String
  data : String
deriving DecidableEq, Repr

/-- Second stage of `dataUrlToParts`: the regex result on the pre-comma
header (`!mimeMatch || !mimeMatch[1]` is the MIME-type error) and the
post-comma payload give the record. -/
def dataUrlToPartsCap : Option (List Char) → List Char → Except GenError MimeParts
  | some cap, a1 =>
    if cap = [] then Except.error GenError.badMime
    else Except.ok ⟨⟨cap⟩, ⟨a1⟩⟩
  | none, _ => Except.error GenError.badMime

/-- First stage of `dataUrlToParts`: fewer than two comma-separated segments
is an invalid data URL; otherwise run the MIME regex on the first segment. -/
def dataUrlToPartsAux : List (List Char) → Except GenError MimeParts
  | a0 :: a1 :: _ => dataUrlToPartsCap (matchColonSemi a0) a1
  | _ => Except.error GenError.invalidDataUrl

/-- `dataUrlToParts`: split on `','` and analyse the segments. -/
def dataUrlToParts (dataUrl : String) : Except GenError MimeParts :=
  dataUrlToPartsAux (splitChar ',' dataUrl.data)

/-- The client object constructed by `new GoogleGenAI({ apiKey })`. -/
structure GoogleGenAI where
  apiKey : String
deriving DecidableEq, Repr

/-- Module-load initialization: `ai = new GoogleGenAI({apiKey: API_KEY})` when
`API_KEY` is truthy, else `ai = null` (console error only, no throw). -/
def initAi (apiKey : Option String) : Option GoogleGenAI :=
  match apiKey with
  | some k => if k = "" then none else some ⟨k⟩
  | none => none

/-- `getInitializedAi`: return the client, or throw the initialization error. -/
def getInitializedAi (ai : Option GoogleGenAI) : Except GenError GoogleGenAI :=
  match ai with
  | some a => Except.ok a
  | none => Except.error GenError.notInitialized

/-- A response modality requested in the generation config. -/
inductive Modality where
  | IMAGE
  | TEXT
deriving DecidableEq, Repr

/-- One content part of a generation request: inline image data or text. -/
inductive ReqPart where
  | inlineData (mimeType : String) (data : String)
  | text (s : String)
deriving DecidableEq, Repr

/-- One request to `ai.models.generateContent`: model id, ordered parts, and
the requested response modalities. -/
structure GenRequest where
  model : String
  parts : List ReqPart
  responseModalities : List Modality
deriving DecidableEq, Repr

/-- A user-selected file; `FileReader.readAsDataURL` is modelled by the
`dataUrl` field holding the data-URL encoding the reader would produce. -/
structure File where
  dataUrl : String
deriving DecidableEq, Repr

/-- `fileToPart`: read the file as a data URL and convert it to an inline part. -/
def fileToPart (file : File) : Except GenError ReqPart :=
  (dataUrlToParts file.dataUrl).map fun p => ReqPart.inlineData p.mimeType p.data

/-- `dataUrlToPart`: convert a data URL to an inline request part. -/
def dataUrlToPart (dataUrl : String) : Except GenError ReqPart :=
  (dataUrlToParts dataUrl).map fun p => ReqPart.inlineData p.mimeType p.data

/-- `candidate.content?.parts?.find(part => part.inlineData)?.inlineData`. -/
def candidateImage (c : Candidate) : Option InlineData :=
  match c.content with
  | none => none
  | some content =>
    match content.parts with
    | none => none
    | some parts =>
      match parts.find? (fun part => part.inlineData.isSome) with
      | some part => part.inlineData
      | none => none

/-- The loop of `handleApiResponse`: first inline image data over the
candidates in order. -/
def firstImage : List Candidate → Option InlineData
  | [] => none
  | c :: rest =>
    match candidateImage c with
    | some d => some d
    | none => firstImage rest

/-- Drop leading whitespace characters from a character list. -/
def dropWhitespace : List Char → List Char
  | [] => []
  | c :: rest => if c.isWhitespace then dropWhitespace rest else c :: rest

/-- JavaScript `s.trim()`: strip whitespace from both ends (whitespace per
`Char.isWhitespace`), written on character lists so that it evaluates by
kernel reduction. -/
def jsTrim (s : String) : String :=
  ⟨(dropWhitespace (dropWhitespace s.data).reverse).reverse⟩

/-- The text-feedback analysis of the no-image fallthrough, on
`response.text`: a truthy trimmed feedback selects the quoting message. -/
def noImageCase : Option String → Except GenError String
  | some t =>
    if jsTrim t = "" then Except.error (GenError.noImage none)
    else Except.error (GenError.noImage (some (jsTrim t)))
  | none => Except.error (GenError.noImage none)

/-- The fallthrough of `handleApiResponse` when no image part exists:
text feedback (trimmed, truthy) selects the quoting message. -/
def noImageFailure (response : GenerateContentResponse) : Except GenError String :=
  noImageCase response.text

/-- The finish-reason analysis, on `response.candidates?.[0]?.finishReason`:
a truthy reason other than "STOP" is a generation interruption. -/
def finishReasonCase (fr? : Option String) (response : GenerateContentResponse) :
    Except GenError String :=
  match fr? with
  | some fr =>
    if fr = "" then noImageFailure response
    else if fr = "STOP" then noImageFailure response
    else Except.error (GenError.interrupted fr)
  | none => noImageFailure response

/-- After the image scan: inspect the first candidate's finish reason. -/
def finishReasonCheck (response : GenerateContentResponse) : Except GenError String :=
  finishReasonCase ((response.candidates.getD []).head?.bind Candidate.finishReason)
    response

/-- The image-scan analysis: a found inline part becomes a data URL; otherwise
fall through to the failure analysis. -/
def imageCase (img? : Option InlineData) (response : GenerateContentResponse) :
    Except GenError String :=
  match img? with
  | some d => Except.ok ("data:" ++ d.mimeType ++ ";base64," ++ d.data)
  | none => finishReasonCheck response

/-- `handleApiResponse` minus the initial block check: return the first inline
image as a data URL, else fall through to the failure analysis. -/
def imageOrFailure (response : GenerateContentResponse) : Except GenError String :=
  imageCase (firstImage (response.candidates.getD [])) response

/-- `handleApiResponse`: blocked-prompt check first (JS truthiness on
`promptFeedback?.blockReason`), then image scan and failure analysis. -/
def handleApiResponse (response : GenerateContentResponse) : Except GenError String :=
  match response.promptFeedback with
  | some pf =>
    match pf.blockReason with
    | some br =>
      if br = "" then imageOrFailure response
      else Except.error (GenError.blocked br pf.blockReasonMessage)
    | none => imageOrFailure response
  | none => imageOrFailure response

/-- The model id used by every operation. -/
def model : String := "gemini-2.5-flash-image-preview"

/-- The fixed prompt of `generateModelImage`. -/
def generateModelImagePrompt : String :=
  "You are a world-class AI photo editor specializing in photorealistic transformations. Edit the provided image according to these extremely precise, NON-NEGOTIABLE instructions. The final result must be seamless and realistic.\n\n**Core Objective:** Transform the subject into an athletic version of themselves in a new pose and with professional studio lighting, while perfectly preserving their identity and the original environment's style.\n\n**Detailed Instructions (ALL ARE CRITICAL):**\n\n1.  **Abdomen Visibility (Absolute Mandate):** This is the most critical rule. Under ALL circumstances, a significant portion of the subject's abdomen MUST be clearly visible. This rule supersedes all other clothing or posing instructions if they conflict. If clothing covers the stomach, it MUST be cropped. If a pose would hide the stomach, the pose MUST be adjusted. This is a NON-NEGOTIABLE requirement.\n\n2.  **Identity Preservation (Highest Priority):** You MUST NOT alter the subject's face, hair style, hair color, or unique facial features in any way. Their identity from the original photo must be perfectly and flawlessly maintained. This is a strict requirement.\n\n3.  **Pose Transformation (Subtle & Natural):**\n    *   Change the subject's pose to a natural **\"3/4 view\"**.\n    *   The subject must be slightly turned. **One leg should be bent *very slightly* to break a stiff stance, with the foot only minimally raised from the ground. The bend must be subtle and look completely natural and relaxed**, not like an intentional model pose. Avoid any high leg lifts or exaggerated angles. THIS IS A NON-NEGOTIABLE INSTRUCTION for a natural look.\n    *   **CRITICAL: The subject must be looking directly at the camera.**\n    *   **CRITICAL: The subject's hands and arms MUST NOT obstruct the view of their abdomen. Position them naturally to the sides or in another way that leaves the torso fully visible.**\n\n4.  **Lighting Transformation:**\n    *   First, perfectly isolate the subject from their background.\n    *   Keep the original background environment, but **subtly darken it**. It should only be slightly dimmer than the subject, just enough to draw focus to them without making the scene look unnaturally dark.\n    *   Next, apply a bright yet **soft, professional 3-point studio lighting setup** only to the subject. The light should have a **slightly warm tone**, creating a flattering look and eliminating any harsh shadows.\n    *   The subject must remain the brightest element in the image, standing out vividly against the slightly darkened background.\n\n5.  **Physique Refinement (Amateur Athletic Build - CRITICAL & NON-NEGOTIABLE):**\n    *   Modify the subject's entire physique from the waist down (abdomen, lower body, and legs) to have a fit, 'amateur athletic' build. \n    *   This means you MUST **completely remove all visible excess fat** from the belly, sides (obliques), hips, and thighs. The stomach MUST be flat and toned, and the legs should appear strong and shapely.\n    *   **CRITICAL: This must look natural.** Do NOT create overly defined six-pack abs or the physique of a professional bodybuilder. The goal is a healthy, toned look for someone who exercises regularly.\n\n6.  **Conditional Clothing Modification (CRITICAL & NON-NEGOTIABLE):**\n    *   Examine the subject's top. **If, and ONLY IF,** the garment fully covers their stomach, you MUST digitally crop it to become a crop top that ends just under the bust, revealing the entire abdomen. This is mandatory to fulfill the Abdomen Visibility rule.\n    *   If the abdomen is already visible in the original photo, you MUST NOT alter the top.\n    *   Do not change their pants/shorts unless necessary to accommodate the new pose.\n\n7.  **Final Output:**\n    *   The final image MUST be photorealistic and seamlessly edited.\n    *   Return ONLY the final image. Do not add any text, borders, or other elements."

/-- The fixed prompt of `generateVirtualTryOnImage`. -/
def tryOnPrompt : String :=
  "You are an expert AI fashion stylist. Your task is to realistically place the provided garment onto the person in the model image.\n\n**Instructions:**\n1.  **Analyze both images:** Carefully examine the model's pose, body shape, and the lighting in their photo. Also, analyze the garment's shape, texture, and how it drapes.\n2.  **Apply the Garment:** Seamlessly fit the garment onto the model. It must look natural, with realistic folds, shadows, and highlights that match the lighting on the model.\n3.  **Preserve Identity & Pose:** Do NOT alter the model's face, body, pose, or the background. Only add the garment.\n4.  **Output:** Return only the final photorealistic image of the model wearing the garment."

/-- The prompt of `generatePoseVariation`, with the pose instruction
interpolated in double quotes. -/
def posePrompt (poseInstruction : String) : String :=
  "Carefully analyze the provided image. Your task is to regenerate the image with the person in a new pose as described, while maintaining their identity, clothing, and the background style.\n\n**Instructions:**\n1.  **Preserve Identity:** Do NOT change the person's face, hair, or distinct features. Their identity must remain the same.\n2.  **Maintain Appearance:** Keep the person's clothing and the style of the background consistent with the original image.\n3.  **Change Pose:** Modify the person's pose to: \"" ++
    poseInstruction ++
    "\".\n4.  **Output:** Return only the newly generated photorealistic image."

/-- The two accepted adjustment directions of `adjustBodyShape`. -/
inductive Direction where
  | more
  | less
deriving DecidableEq, Repr

/-- The literal string value of a direction. -/
def Direction.str : Direction → String
  | .more => "more"
  | .less => "less"

/-- The part of the `adjustBodyShape` prompt before the interpolated
direction. -/
def adjustPromptPre : String :=
  "You are a precise AI photo editor. The user wants to subtly adjust the abdominal muscles on the person in the image.\n\n**Instruction:**\n*   **Direction:** \""

/-- The part of the `adjustBodyShape` prompt after the interpolated
direction. -/
def adjustPromptPost : String :=
  "\"\n*   If the direction is \"more\", slightly **increase** the definition of the six-pack abs, making them a bit more visible and toned.\n*   If the direction is \"less\", slightly **decrease** the definition of the abs, making the stomach flatter and smoother.\n*   **CRITICAL:** The change MUST be subtle and photorealistic.\n*   **NON-NEGOTIABLE:** Do NOT change anything else. The face, hair, body shape, clothing, lighting, and background must remain absolutely identical.\n\nReturn ONLY the edited image."

/-- The prompt of `adjustBodyShape`, with the direction interpolated in double
quotes. -/
def adjustPrompt (direction : Direction) : String :=
  adjustPromptPre ++ direction.str ++ adjustPromptPost

/-- `generateModelImage`: check initialization, convert the file, issue one
generation call, normalize the response. The second component lists the
requests issued. -/
def generateModelImage (ai : Option GoogleGenAI)
    (api : GenRequest → GenerateContentResponse) (userImage : File) :
    Except GenError String × List GenRequest :=
  match getInitializedAi ai with
  | Except.error e => (Except.error e, [])
  | Except.ok _ =>
    match fileToPart userImage with
    | Except.error e => (Except.error e, [])
    | Except.ok userImagePart =>
      let req : GenRequest :=
        { model := model
          parts := [userImagePart, ReqPart.text generateModelImagePrompt]
          responseModalities := [Modality.IMAGE, Modality.TEXT] }
      (handleApiResponse (api req), [req])

/-- `generateVirtualTryOnImage`: check initialization, convert the model data
URL then the garment file, issue one generation call, normalize. -/
def generateVirtualTryOnImage (ai : Option GoogleGenAI)
    (api : GenRequest → GenerateContentResponse)
    (modelImageUrl : String) (garmentImage : File) :
    Except GenError String × List GenRequest :=
  match getInitializedAi ai with
  | Except.error e => (Except.error e, [])
  | Except.ok _ =>
    match dataUrlToPart modelImageUrl with
    | Except.error e => (Except.error e, [])
    | Except.ok modelImagePart =>
      match fileToPart garmentImage with
      | Except.error e => (Except.error e, [])
      | Except.ok garmentImagePart =>
        let req : GenRequest :=
          { model := model
            parts := [modelImagePart, garmentImagePart, ReqPart.text tryOnPrompt]
            responseModalities := [Modality.IMAGE, Modality.TEXT] }
        (handleApiResponse (api req), [req])

/-- `generatePoseVariation`: check initialization, convert the base data URL,
issue one generation call with the pose prompt, normalize. -/
def generatePoseVariation (ai : Option GoogleGenAI)
    (api : GenRequest → GenerateContentResponse)
    (baseImageUrl : String) (poseInstruction : String) :
    Except GenError String × List GenRequest :=
  match getInitializedAi ai with
  | Except.error e => (Except.error e, [])
  | Except.ok _ =>
    match dataUrlToPart baseImageUrl with
    | Except.error e => (Except.error e, [])
    | Except.ok baseImagePart =>
      let req : GenRequest :=
        { model := model
          parts := [baseImagePart, ReqPart.text (posePrompt poseInstruction)]
          responseModalities := [Modality.IMAGE, Modality.TEXT] }
      (handleApiResponse (api req), [req])

/-- `adjustBodyShape`: check initialization, convert the base data URL, issue
one generation call with the direction prompt, normalize. -/
def adjustBodyShape (ai : Option GoogleGenAI)
    (api : GenRequest → GenerateContentResponse)
    (baseImageUrl : String) (direction : Direction) :
    Except GenError String × List GenRequest :=
  match getInitializedAi ai with
  | Except.error e => (Except.error e, [])
  | Except.ok _ =>
    match dataUrlToPart baseImageUrl with
    | Except.error e => (Except.error e, [])
    | Except.ok baseImagePart =>
      let req : GenRequest :=
        { model := model
          parts := [baseImagePart, ReqPart.text (adjustPrompt direction)]
          responseModalities := [Modality.IMAGE, Modality.TEXT] }
      (handleApiResponse (api req), [req])

/-- The `StartScreen` component state relevant to the body-adjustment handler. -/
structure StartScreenState where
  userImageUrl : Option String
  generatedModelUrl : Option String
  isGenerating : Bool
  isAdjusting : Bool
  error : Option String
deriving DecidableEq, Repr

/-- `handleBodyAdjustment` from `StartScreen.tsx`, as a function from the
committed state before the call to the committed state after the handler
settles. `friendly` stands for `getFriendlyErrorMessage` from `lib/utils`
(not part of the sources; the claims only need that the error message is
derived from the rejection and the fallback text). `adjust` stands for the
service call. The second component counts generation calls issued. -/
def handleBodyAdjustment (friendly : GenError → String → String)
    (adjust : String → Direction → Except GenError String)
    (s : StartScreenState) (direction : Direction) :
    StartScreenState × Nat :=
  if !optStrTruthy s.generatedModelUrl || s.isGenerating || s.isAdjusting then
    (s, 0)
  else
    match s.generatedModelUrl with
    | none => (s, 0)
    | some url =>
      let s1 : StartScreenState := { s with error := none, isAdjusting := true }
      match adjust url direction with
      | Except.ok newImageUrl =>
        ({ s1 with generatedModelUrl := some newImageUrl, isAdjusting := false }, 1)
      | Except.error e =>
        ({ s1 with error := some (friendly e "Failed to adjust body shape"),
                   isAdjusting := false }, 1)

/-- The truthy block check at the head of `handleApiResponse`:
`response.promptFeedback?.blockReason` as a Boolean. -/
def blockedCheck (response : GenerateContentResponse) : Bool :=
  match response.promptFeedback with
  | some pf => optStrTruthy pf.blockReason
  | none => false

/-- The first candidate's finish reason is absent, empty, or `"STOP"` (no
generation interruption would be reported). -/
def finishReasonStops (response : GenerateContentResponse) : Bool :=
  match (response.candidates.getD []).head?.bind Candidate.finishReason with
  | some fr => fr == "" || fr == "STOP"
  | none => true

/-- A string on which `dataUrlToParts` fails: it contains no comma, or the
pre-comma header has no parsable nonempty MIME type between `:` and `;`. -/
def isMalformedDataUrl (s : String) : Bool :=
  match dataUrlToParts s with
  | Except.error _ => true
  | Except.ok _ => false

/-- The single request `adjustBodyShape` issues for decoded base image `p`
and direction `d`. -/
def adjustReq (p : MimeParts) (d : Direction) : GenRequest :=
  { model := model
    parts := [ReqPart.inlineData p.mimeType p.data, ReqPart.text (adjustPrompt d)]
    responseModalities := [Modality.IMAGE, Modality.TEXT] }

/-- A response that is blocked (`blockReason` `"SAFETY"`) and at the same time
carries an inline image part in its only candidate. -/
def blockedWithImageResp : GenerateContentResponse :=
  { promptFeedback := some { blockReason := some "SAFETY", blockReasonMessage := none }
    candidates := some
      [{ content := some
           { parts := some
               [{ inlineData := some { mimeType := "image/png", data := "QUJD" }
                  text := none }] }
         finishReason := some "STOP" }]
    text := none }

/-- A response with no image part, first candidate stopped with `"STOP"`, and
a second candidate with finish reason `"SAFETY"`. -/
def laterFinishReasonResp : GenerateContentResponse :=
  { promptFeedback := none
    candidates := some
      [{ content := none, finishReason := some "STOP" },
       { content := none, finishReason := some "SAFETY" }]
    text := none }

/-- A response with no candidates and whitespace-padded text feedback. -/
def paddedTextResp : GenerateContentResponse :=
  { promptFeedback := none
    candidates := some []
    text := some " hi " }

/-! ## Theorems -/

/-- `strIncludes` holds of any explicit append decomposition. -/
theorem strIncludes_of_append (pre sub post : String) :
    strIncludes (pre ++ sub ++ post) sub := by
  exact ⟨pre.data, post.data, by simp [String.data_append]⟩

/-- Splitting a list that contains no separator yields that list alone. -/
theorem splitChar_of_not_mem (sep : Char) (l : List Char)
    (h : ∀ c ∈ l, c ≠ sep) : splitChar sep l = [l] := by
  induction l with
  | nil => rfl
  | cons c rest ih =>
    have hc : c ≠ sep := h c (List.mem_cons_self c rest)
    have ih' := ih (fun x hx => h x (List.mem_cons_of_mem c hx))
    simp only [splitChar, if_neg hc, ih']

/-- Splitting at the first separator: a separator-free prefix becomes the
first segment. -/
theorem splitChar_append_sep (sep : Char) (l1 l2 : List Char)
    (h : ∀ c ∈ l1, c ≠ sep) :
    splitChar sep (l1 ++ sep :: l2) = l1 :: splitChar sep l2 := by
  induction l1 with
  | nil => simp [splitChar]
  | cons c rest ih =>
    have hc : c ≠ sep := h c (List.mem_cons_self c rest)
    have ih' := ih (fun x hx => h x (List.mem_cons_of_mem c hx))
    simp only [List.cons_append, splitChar, if_neg hc, List.append_eq, ih']

/-- The lazy capture stops at the first `;` when the prefix has no `;` and no
newline. -/
theorem captureUpToSemi_append (m r : List Char)
    (h : ∀ c ∈ m, c ≠ ';' ∧ c ≠ '\n') :
    captureUpToSemi (m ++ ';' :: r) = some m := by
  induction m with
  | nil => simp [captureUpToSemi]
  | cons c rest ih =>
    have hc := h c (List.mem_cons_self c rest)
    have ih' := ih (fun x hx => h x (List.mem_cons_of_mem c hx))
    simp only [List.cons_append, captureUpToSemi, if_neg hc.1, if_neg hc.2,
      List.append_eq, ih', Option.map_some']

/-- On a segment of the shape `data:<mime>;…` with a clean `mime`, the regex
captures exactly `mime`. -/
theorem matchColonSemi_data (m r : List Char)
    (h : ∀ c ∈ m, c ≠ ';' ∧ c ≠ '\n') :
    matchColonSemi ('d' :: 'a' :: 't' :: 'a' :: ':' :: (m ++ ';' :: r)) =
      some m := by
  have hcap := captureUpToSemi_append m r h
  simp only [matchColonSemi, if_neg (by decide : ¬ ('d' = ':')),
    if_neg (by decide : ¬ ('a' = ':')), if_neg (by decide : ¬ ('t' = ':')),
    ite_true, hcap]

/-- `dataUrlToParts` only ever fails with the two malformed-input errors. -/
theorem dataUrlToParts_error_kinds (s : String) (e : GenError)
    (h : dataUrlToParts s = Except.error e) :
    e = GenError.invalidDataUrl ∨ e = GenError.badMime := by
  unfold dataUrlToParts at h
  cases hs : splitChar ',' s.data with
  | nil => rw [hs] at h; simp only [dataUrlToPartsAux] at h; simp_all
  | cons a0 tl =>
    cases tl with
    | nil => rw [hs] at h; simp only [dataUrlToPartsAux] at h; simp_all
    | cons a1 tl2 =>
      rw [hs] at h
      simp only [dataUrlToPartsAux] at h
      cases hm : matchColonSemi a0 with
      | none => rw [hm] at h; simp only [dataUrlToPartsCap] at h; simp_all
      | some cap =>
        rw [hm] at h
        simp only [dataUrlToPartsCap] at h
        by_cases hcnil : cap = []
        · rw [if_pos hcnil] at h; simp_all
        · rw [if_neg hcnil] at h; simp_all

/-- On a malformed data URL, `dataUrlToParts` fails with a malformed-input
error. -/
theorem dataUrlToParts_malformed (s : String)
    (h : isMalformedDataUrl s = true) :
    ∃ e, dataUrlToParts s = Except.error e ∧
      (e = GenError.invalidDataUrl ∨ e = GenError.badMime) := by
  unfold isMalformedDataUrl at h
  cases hd : dataUrlToParts s with
  | error e => exact ⟨e, rfl, dataUrlToParts_error_kinds s e hd⟩
  | ok p => rw [hd] at h; cases h

/-- `dataUrlToPart` propagates the failure of `dataUrlToParts`. -/
theorem dataUrlToPart_malformed (s : String)
    (h : isMalformedDataUrl s = true) :
    ∃ e, dataUrlToPart s = Except.error e ∧
      (e = GenError.invalidDataUrl ∨ e = GenError.badMime) := by
  obtain ⟨e, he, hk⟩ := dataUrlToParts_malformed s h
  exact ⟨e, by simp [dataUrlToPart, he, Except.map], hk⟩

/-- Without a truthy block reason, `handleApiResponse` proceeds to the image
scan. -/
theorem handleApiResponse_noBlock (response : GenerateContentResponse)
    (h : blockedCheck response = false) :
    handleApiResponse response = imageOrFailure response := by
  obtain ⟨pfOpt, cands, txt⟩ := response
  cases pfOpt with
  | none => rfl
  | some pf =>
    obtain ⟨brOpt, msgOpt⟩ := pf
    cases brOpt with
    | none => rfl
    | some br =>
      simp only [blockedCheck, optStrTruthy] at h
      rw [bne_eq_false_iff_eq] at h
      simp only [handleApiResponse, if_pos h]

/-- No character of the pre-comma header `data:<mime>;base64` is a comma,
when the MIME type itself has none. -/
theorem header_no_comma (mimeData : List Char)
    (hm : ∀ c ∈ mimeData, c ≠ ',') :
    ∀ c ∈ ['d', 'a', 't', 'a', ':'] ++
        (mimeData ++ [';', 'b', 'a', 's', 'e', '6', '4']), c ≠ ',' := by
  intro c hc
  rcases List.mem_append.mp hc with h | h
  · fin_cases h <;> decide
  · rcases List.mem_append.mp h with h2 | h2
    · exact hm c h2
    · fin_cases h2 <;> decide

/-- `dataUrlToParts` at a known split and regex outcome. -/
theorem dataUrlToParts_eq_ok (u : String) (a0 a1 : List Char)
    (tl : List (List Char)) (cap : List Char)
    (hs : splitChar ',' u.data = a0 :: a1 :: tl)
    (hm : matchColonSemi a0 = some cap) (hc : cap ≠ []) :
    dataUrlToParts u = Except.ok ⟨⟨cap⟩, ⟨a1⟩⟩ := by
  unfold dataUrlToParts
  rw [hs]
  simp only [dataUrlToPartsAux]
  rw [hm]
  simp only [dataUrlToPartsCap]
  rw [if_neg hc]

/-- C5 core: decoding `data:<mime>;base64,<payload>` returns exactly the MIME
type and the payload, for any clean MIME type and comma-free payload. -/
theorem dataUrlToParts_encode (mime payload : String)
    (hm : ∀ c ∈ mime.data, c ≠ ',' ∧ c ≠ ';' ∧ c ≠ '\n')
    (hne : mime ≠ "")
    (hp : ∀ c ∈ payload.data, c ≠ ',') :
    dataUrlToParts ("data:" ++ mime ++ ";base64," ++ payload) =
      Except.ok ⟨mime, payload⟩ := by
  have hdata : ("data:" ++ mime ++ ";base64," ++ payload).data =
      (['d', 'a', 't', 'a', ':'] ++
        (mime.data ++ [';', 'b', 'a', 's', 'e', '6', '4'])) ++
        ',' :: payload.data := by
    have h1 : ("data:" : String).data = ['d', 'a', 't', 'a', ':'] := rfl
    have h2 : ((";base64," : String)).data =
        [';', 'b', 'a', 's', 'e', '6', '4', ','] := rfl
    simp only [String.data_append, h1, h2]
    simp [List.append_assoc]
  have hsplit : splitChar ',' (("data:" ++ mime ++ ";base64," ++ payload).data) =
      (['d', 'a', 't', 'a', ':'] ++
        (mime.data ++ [';', 'b', 'a', 's', 'e', '6', '4'])) ::
        [payload.data] := by
    rw [hdata,
      splitChar_append_sep ',' _ _ (header_no_comma mime.data fun c hc => (hm c hc).1),
      splitChar_of_not_mem ',' _ hp]
  have hmime : matchColonSemi (['d', 'a', 't', 'a', ':'] ++
      (mime.data ++ [';', 'b', 'a', 's', 'e', '6', '4'])) = some mime.data := by
    have := matchColonSemi_data mime.data ['b', 'a', 's', 'e', '6', '4']
      (fun c hc => ⟨(hm c hc).2.1, (hm c hc).2.2⟩)
    simpa using this
  have hcap : mime.data ≠ [] := by
    intro hnil
    exact hne (by cases mime with | mk d => simp_all)
  have := dataUrlToParts_eq_ok ("data:" ++ mime ++ ";base64," ++ payload)
    _ _ _ _ hsplit hmime hcap
  simpa using this

/-- `fileToPart` only ever fails with the two malformed-input errors. -/
theorem fileToPart_error_kinds (f : File) (e : GenError)
    (h : fileToPart f = Except.error e) :
    e = GenError.invalidDataUrl ∨ e = GenError.badMime := by
  unfold fileToPart at h
  cases hd : dataUrlToParts f.dataUrl with
  | error e2 =>
    rw [hd] at h
    simp only [Except.map] at h
    injection h with h2
    exact h2 ▸ dataUrlToParts_error_kinds f.dataUrl e2 hd
  | ok p => rw [hd] at h; simp [Except.map] at h

/-- `dataUrlToPart` only ever fails with the two malformed-input errors. -/
theorem dataUrlToPart_error_kinds (u : String) (e : GenError)
    (h : dataUrlToPart u = Except.error e) :
    e = GenError.invalidDataUrl ∨ e = GenError.badMime := by
  unfold dataUrlToPart at h
  cases hd : dataUrlToParts u with
  | error e2 =>
    rw [hd] at h
    simp only [Except.map] at h
    injection h with h2
    exact h2 ▸ dataUrlToParts_error_kinds u e2 hd
  | ok p => rw [hd] at h; simp [Except.map] at h

/-- The text-feedback analysis never produces the initialization error. -/
theorem noImageCase_ne_notInit (t? : Option String) :
    noImageCase t? ≠ Except.error GenError.notInitialized := by
  cases t? with
  | none => simp [noImageCase]
  | some t => by_cases h : jsTrim t = "" <;> simp [noImageCase, h]

/-- The finish-reason analysis never produces the initialization error. -/
theorem finishReasonCase_ne_notInit (fr? : Option String)
    (r : GenerateContentResponse) :
    finishReasonCase fr? r ≠ Except.error GenError.notInitialized := by
  cases fr? with
  | none => simpa [finishReasonCase, noImageFailure] using noImageCase_ne_notInit r.text
  | some fr =>
    by_cases h1 : fr = ""
    · simpa [finishReasonCase, h1, noImageFailure] using noImageCase_ne_notInit r.text
    · by_cases h2 : fr = "STOP"
      · simpa [finishReasonCase, h1, h2, noImageFailure] using
          noImageCase_ne_notInit r.text
      · simp [finishReasonCase, h1, h2]

/-- The image-scan analysis never produces the initialization error. -/
theorem imageOrFailure_ne_notInit (r : GenerateContentResponse) :
    imageOrFailure r ≠ Except.error GenError.notInitialized := by
  unfold imageOrFailure
  cases hfi : firstImage (r.candidates.getD []) with
  | some d => simp [imageCase]
  | none =>
    simpa [imageCase, finishReasonCheck] using
      finishReasonCase_ne_notInit
        ((r.candidates.getD []).head?.bind Candidate.finishReason) r

/-- Response normalization never produces the initialization error. -/
theorem handleApiResponse_ne_notInit (r : GenerateContentResponse) :
    handleApiResponse r ≠ Except.error GenError.notInitialized := by
  obtain ⟨pfOpt, cands, txt⟩ := r
  have h := imageOrFailure_ne_notInit ⟨pfOpt, cands, txt⟩
  cases pfOpt with
  | none => exact h
  | some pf =>
    obtain ⟨brOpt, msgOpt⟩ := pf
    cases brOpt with
    | none => exact h
    | some br =>
      by_cases hbr : br = ""
      · simpa [handleApiResponse, hbr] using h
      · simp [handleApiResponse, hbr]

/-- With an initialized client, `generateModelImage` never rejects with the
initialization error. -/
theorem generateModelImage_ne_notInit (g : GoogleGenAI)
    (api : GenRequest → GenerateContentResponse) (f : File) :
    (generateModelImage (some g) api f).1 ≠
      Except.error GenError.notInitialized := by
  unfold generateModelImage
  simp only [getInitializedAi]
  cases hf : fileToPart f with
  | error e =>
    obtain rfl | rfl := fileToPart_error_kinds f e hf <;> simp
  | ok part => simpa using handleApiResponse_ne_notInit _

/-- With an initialized client, `generateVirtualTryOnImage` never rejects
with the initialization error. -/
theorem generateVirtualTryOnImage_ne_notInit (g : GoogleGenAI)
    (api : GenRequest → GenerateContentResponse) (url : String) (garment : File) :
    (generateVirtualTryOnImage (some g) api url garment).1 ≠
      Except.error GenError.notInitialized := by
  unfold generateVirtualTryOnImage
  simp only [getInitializedAi]
  cases hu : dataUrlToPart url with
  | error e =>
    obtain rfl | rfl := dataUrlToPart_error_kinds url e hu <;> simp
  | ok part =>
    cases hf : fileToPart garment with
    | error e =>
      obtain rfl | rfl := fileToPart_error_kinds garment e hf <;> simp
    | ok gpart => simpa using handleApiResponse_ne_notInit _

/-- With an initialized client, `generatePoseVariation` never rejects with
the initialization error. -/
theorem generatePoseVariation_ne_notInit (g : GoogleGenAI)
    (api : GenRequest → GenerateContentResponse) (url pose : String) :
    (generatePoseVariation (some g) api url pose).1 ≠
      Except.error GenError.notInitialized := by
  unfold generatePoseVariation
  simp only [getInitializedAi]
  cases hu : dataUrlToPart url with
  | error e =>
    obtain rfl | rfl := dataUrlToPart_error_kinds url e hu <;> simp
  | ok part => simpa using handleApiResponse_ne_notInit _

/-- With an initialized client, `adjustBodyShape` never rejects with the
initialization error. -/
theorem adjustBodyShape_ne_notInit (g : GoogleGenAI)
    (api : GenRequest → GenerateContentResponse) (url : String) (dir : Direction) :
    (adjustBodyShape (some g) api url dir).1 ≠
      Except.error GenError.notInitialized := by
  unfold adjustBodyShape
  simp only [getInitializedAi]
  cases hu : dataUrlToPart url with
  | error e =>
    obtain rfl | rfl := dataUrlToPart_error_kinds url e hu <;> simp
  | ok part => simpa using handleApiResponse_ne_notInit _

/-- When the first finish reason is absent, empty, or "STOP", the analysis
falls through to the no-image failure. -/
theorem finishReasonCase_stop_or_empty (fr? : Option String)
    (r : GenerateContentResponse)
    (h : fr? = none ∨ fr? = some "" ∨ fr? = some "STOP") :
    finishReasonCase fr? r = noImageFailure r := by
  rcases h with rfl | rfl | rfl <;> simp [finishReasonCase]

set_option maxRecDepth 8192 in
/-- C1 counterexample: a response whose only candidate carries inline image
data (`firstImage` finds it) while the prompt feedback carries block reason
`"SAFETY"`; `handleApiResponse` rejects with the blocked-content error
instead of returning the data URL built from that part's MIME type and
payload. -/
theorem c1_blocked_image_counterexample :
    firstImage (blockedWithImageResp.candidates.getD []) =
      some ⟨"image/png", "QUJD"⟩ ∧
    handleApiResponse blockedWithImageResp =
      Except.error (GenError.blocked "SAFETY" none) ∧
    handleApiResponse blockedWithImageResp ≠
      Except.ok ("data:" ++ "image/png" ++ ";base64," ++ "QUJD") := by
  refine ⟨by decide, by decide, by decide⟩

/-- C1 (amended): for every API response without a truthy prompt-feedback
block reason, if some candidate contains a part with inline image data then
`handleApiResponse` returns the string `data:<mime>;base64,<payload>` built
from the first such part's MIME type and payload (candidates scanned in
order, first part with inline data within the candidate). -/
theorem handleApiResponse_returns_first_image (resp : GenerateContentResponse)
    (d : InlineData) (hnb : blockedCheck resp = false)
    (himg : firstImage (resp.candidates.getD []) = some d) :
    handleApiResponse resp =
      Except.ok ("data:" ++ d.mimeType ++ ";base64," ++ d.data) := by
  rw [handleApiResponse_noBlock resp hnb]
  unfold imageOrFailure
  rw [himg]
  simp [imageCase]

set_option maxRecDepth 8192 in
/-- C1 witness: the amended theorem applied to a concrete unblocked response
whose second part holds inline image data. -/
theorem handleApiResponse_returns_first_image_witness :
    handleApiResponse
        ⟨none,
         some [⟨some ⟨some [⟨none, some "note"⟩,
                           ⟨some ⟨"image/png", "QUJD"⟩, none⟩]⟩,
                some "STOP"⟩],
         none⟩ =
      Except.ok ("data:" ++ "image/png" ++ ";base64," ++ "QUJD") :=
  handleApiResponse_returns_first_image _ ⟨"image/png", "QUJD"⟩
    (by decide) (by decide)

/-- C2: for every API response whose prompt feedback has a (truthy) block
reason set, `handleApiResponse` rejects with the blocked-content error, whose
message contains that block reason. -/
theorem handleApiResponse_blocked (resp : GenerateContentResponse)
    (pf : PromptFeedback) (br : String)
    (hpf : resp.promptFeedback = some pf)
    (hbr : pf.blockReason = some br) (hne : br ≠ "") :
    handleApiResponse resp =
      Except.error (GenError.blocked br pf.blockReasonMessage) ∧
    strIncludes (GenError.blocked br pf.blockReasonMessage).message br := by
  obtain ⟨pfOpt, cands, txt⟩ := resp
  simp only at hpf
  subst hpf
  obtain ⟨brOpt, msgOpt⟩ := pf
  simp only at hbr
  subst hbr
  constructor
  · simp [handleApiResponse, hne]
  · exact ⟨"Request was blocked. Reason: ".data,
      (". " ++ msgOpt.getD "").data,
      by simp [GenError.message, String.data_append]⟩

set_option maxRecDepth 8192 in
/-- C2 witness: the theorem applied to a concrete blocked response. -/
theorem handleApiResponse_blocked_witness :
    handleApiResponse ⟨some ⟨some "SAFETY", some "blocked"⟩, none, none⟩ =
      Except.error (GenError.blocked "SAFETY" (some "blocked")) ∧
    strIncludes (GenError.blocked "SAFETY" (some "blocked")).message "SAFETY" :=
  handleApiResponse_blocked _ ⟨some "SAFETY", some "blocked"⟩ "SAFETY"
    rfl rfl (by decide)

set_option maxRecDepth 8192 in
/-- C3 counterexample: a response with no image part whose second candidate
has the non-"STOP" finish reason "SAFETY" while the first finished with
"STOP"; `handleApiResponse` rejects with the generic no-image error, not with
a generation-interrupted error naming "SAFETY". -/
theorem c3_later_finish_reason_counterexample :
    (laterFinishReasonResp.candidates.getD []).any
        (fun c => c.finishReason == some "SAFETY") = true ∧
    firstImage (laterFinishReasonResp.candidates.getD []) = none ∧
    handleApiResponse laterFinishReasonResp =
      Except.error (GenError.noImage none) ∧
    handleApiResponse laterFinishReasonResp ≠
      Except.error (GenError.interrupted "SAFETY") ∧
    ¬ strIncludes (GenError.noImage none).message "SAFETY" := by
  refine ⟨by decide, by decide, by decide, by decide, by decide⟩

/-- C3 (amended): for every API response without a truthy block reason, with
no inline image data in any candidate, whose FIRST candidate's finish reason
is present, nonempty, and differs from "STOP", `handleApiResponse` rejects
with the generation-interrupted error naming that finish reason. -/
theorem handleApiResponse_interrupted (resp : GenerateContentResponse)
    (fr : String) (hnb : blockedCheck resp = false)
    (hni : firstImage (resp.candidates.getD []) = none)
    (hfr : (resp.candidates.getD []).head?.bind Candidate.finishReason = some fr)
    (h1 : fr ≠ "") (h2 : fr ≠ "STOP") :
    handleApiResponse resp = Except.error (GenError.interrupted fr) ∧
    strIncludes (GenError.interrupted fr).message fr := by
  constructor
  · rw [handleApiResponse_noBlock resp hnb]
    unfold imageOrFailure
    rw [hni]
    simp only [imageCase]
    unfold finishReasonCheck
    rw [hfr]
    simp [finishReasonCase, h1, h2]
  · exact ⟨"Image generation stopped unexpectedly. Reason: ".data,
      ". This often relates to safety settings.".data,
      by simp [GenError.message, String.data_append]⟩

set_option maxRecDepth 8192 in
/-- C3 witness: the amended theorem applied to a concrete response whose
first candidate stopped for "SAFETY". -/
theorem handleApiResponse_interrupted_witness :
    handleApiResponse ⟨none, some [⟨none, some "SAFETY"⟩], none⟩ =
      Except.error (GenError.interrupted "SAFETY") ∧
    strIncludes (GenError.interrupted "SAFETY").message "SAFETY" :=
  handleApiResponse_interrupted _ "SAFETY" (by decide) (by decide) (by decide)
    (by decide) (by decide)

set_option maxRecDepth 8192 in
/-- C4 counterexample: a response with no candidates, a vacuous finish
reason, and text feedback " hi " (padded with spaces); `handleApiResponse`
rejects with a no-image error quoting the TRIMMED text "hi", and its message
does not include the feedback " hi " itself. -/
theorem c4_padded_text_counterexample :
    paddedTextResp.text = some " hi " ∧
    firstImage (paddedTextResp.candidates.getD []) = none ∧
    finishReasonStops paddedTextResp = true ∧
    handleApiResponse paddedTextResp =
      Except.error (GenError.noImage (some "hi")) ∧
    ¬ strIncludes (GenError.noImage (some "hi")).message " hi " := by
  refine ⟨by decide, by decide, by decide, by decide, by decide⟩

/-- C4 (amended): for every API response without a truthy block reason, with
no inline image data in any candidate, a "STOP" (or absent or empty) first
finish reason, and top-level text feedback X whose trimmed value is nonempty,
`handleApiResponse` rejects with the no-image-returned error whose message
includes the trimmed X. -/
theorem handleApiResponse_text_feedback (resp : GenerateContentResponse)
    (x : String) (hnb : blockedCheck resp = false)
    (hni : firstImage (resp.candidates.getD []) = none)
    (hstop : finishReasonStops resp = true)
    (htext : resp.text = some x) (hx : jsTrim x ≠ "") :
    handleApiResponse resp = Except.error (GenError.noImage (some (jsTrim x))) ∧
    strIncludes (GenError.noImage (some (jsTrim x))).message (jsTrim x) := by
  constructor
  · rw [handleApiResponse_noBlock resp hnb]
    unfold imageOrFailure
    rw [hni]
    simp only [imageCase]
    unfold finishReasonCheck
    have hfr3 : (resp.candidates.getD []).head?.bind Candidate.finishReason = none ∨
        (resp.candidates.getD []).head?.bind Candidate.finishReason = some "" ∨
        (resp.candidates.getD []).head?.bind Candidate.finishReason = some "STOP" := by
      unfold finishReasonStops at hstop
      cases hfr : (resp.candidates.getD []).head?.bind Candidate.finishReason with
      | none => exact Or.inl rfl
      | some fr =>
        rw [hfr] at hstop
        simp only [Bool.or_eq_true, beq_iff_eq] at hstop
        rcases hstop with h1 | h1
        · exact Or.inr (Or.inl (by rw [h1]))
        · exact Or.inr (Or.inr (by rw [h1]))
    rw [finishReasonCase_stop_or_empty _ resp hfr3]
    unfold noImageFailure
    rw [htext]
    simp [noImageCase, hx]
  · exact
      ⟨("The AI model did not return an image. " ++
        "The model responded with text: \"").data,
       ("\"" : String).data,
       by simp [GenError.message, String.data_append]⟩

theorem handleApiResponse_text_feedback_witness :
    handleApiResponse ⟨none, some [], some "try again"⟩ =
      Except.error (GenError.noImage (some (jsTrim "try again"))) ∧
    strIncludes (GenError.noImage (some (jsTrim "try again"))).message
      (jsTrim "try again") :=
  handleApiResponse_text_feedback _ "try again" (by decide) (by decide)
    (by decide) rfl (by decide)

/-- C5: for every valid data URL `data:<mime>;base64,<payload>` (nonempty
MIME type free of commas, semicolons and newlines; comma-free payload),
decoding with `dataUrlToParts` succeeds and re-encoding the resulting MIME
type and payload as `data:<mimeType>;base64,<data>` reproduces the original
URL; in particular the payload component round-trips byte-identically. -/
theorem dataUrl_roundtrip (mime payload : String)
    (hm : ∀ c ∈ mime.data, c ≠ ',' ∧ c ≠ ';' ∧ c ≠ '\n')
    (hne : mime ≠ "")
    (hp : ∀ c ∈ payload.data, c ≠ ',') :
    ∃ p, dataUrlToParts ("data:" ++ mime ++ ";base64," ++ payload) =
        Except.ok p ∧
      p.data = payload ∧ p.mimeType = mime ∧
      "data:" ++ p.mimeType ++ ";base64," ++ p.data =
        "data:" ++ mime ++ ";base64," ++ payload :=
  ⟨⟨mime, payload⟩, dataUrlToParts_encode mime payload hm hne hp, rfl, rfl, rfl⟩

set_option maxRecDepth 8192 in
/-- C5 witness: the round-trip theorem applied to a concrete PNG data URL. -/
theorem dataUrl_roundtrip_witness :
    ∃ p, dataUrlToParts ("data:" ++ "image/png" ++ ";base64," ++ "iVBORw0KGgo=") =
        Except.ok p ∧
      p.data = "iVBORw0KGgo=" ∧ p.mimeType = "image/png" ∧
      "data:" ++ p.mimeType ++ ";base64," ++ p.data =
        "data:" ++ "image/png" ++ ";base64," ++ "iVBORw0KGgo=" :=
  dataUrl_roundtrip "image/png" "iVBORw0KGgo=" (by decide) (by decide) (by decide)

/-- C6: for every string that is not a valid data URL (no comma, or no
parsable nonempty MIME type between `:` and `;` in the pre-comma header),
each operation taking a data-URL image reference — `adjustBodyShape`,
`generatePoseVariation`, `generateVirtualTryOnImage` — rejects with a
malformed-input error and issues no generation call. -/
theorem malformed_url_rejected (g : GoogleGenAI)
    (api : GenRequest → GenerateContentResponse) (url pose : String)
    (dir : Direction) (garment : File)
    (h : isMalformedDataUrl url = true) :
    (∃ e, adjustBodyShape (some g) api url dir = (Except.error e, []) ∧
      (e = GenError.invalidDataUrl ∨ e = GenError.badMime)) ∧
    (∃ e, generatePoseVariation (some g) api url pose = (Except.error e, []) ∧
      (e = GenError.invalidDataUrl ∨ e = GenError.badMime)) ∧
    (∃ e, generateVirtualTryOnImage (some g) api url garment =
        (Except.error e, []) ∧
      (e = GenError.invalidDataUrl ∨ e = GenError.badMime)) := by
  obtain ⟨e, he, hk⟩ := dataUrlToPart_malformed url h
  refine ⟨⟨e, ?_, hk⟩, ⟨e, ?_, hk⟩, ⟨e, ?_, hk⟩⟩
  · simp [adjustBodyShape, getInitializedAi, he]
  · simp [generatePoseVariation, getInitializedAi, he]
  · simp [generateVirtualTryOnImage, getInitializedAi, he]

set_option maxRecDepth 8192 in
/-- C6 witness: the theorem applied to the malformed reference
"not-a-data-url". -/
theorem malformed_url_rejected_witness :
    (∃ e, adjustBodyShape (some ⟨"k"⟩) (fun _ => ⟨none, none, none⟩)
        "not-a-data-url" Direction.more = (Except.error e, []) ∧
      (e = GenError.invalidDataUrl ∨ e = GenError.badMime)) ∧
    (∃ e, generatePoseVariation (some ⟨"k"⟩) (fun _ => ⟨none, none, none⟩)
        "not-a-data-url" "sit" = (Except.error e, []) ∧
      (e = GenError.invalidDataUrl ∨ e = GenError.badMime)) ∧
    (∃ e, generateVirtualTryOnImage (some ⟨"k"⟩) (fun _ => ⟨none, none, none⟩)
        "not-a-data-url" ⟨"x"⟩ = (Except.error e, []) ∧
      (e = GenError.invalidDataUrl ∨ e = GenError.badMime)) :=
  malformed_url_rejected ⟨"k"⟩ (fun _ => ⟨none, none, none⟩) "not-a-data-url"
    "sit" Direction.more ⟨"x"⟩ (by decide)

/-- C7: when the API credential is absent (or empty, per JS truthiness),
module load sets the client to null without throwing and every one of the
four generation operations rejects with the initialization error, issuing no
call; when the credential is present, no operation ever rejects with the
initialization error. -/
theorem apiKey_gates_operations (key : Option String)
    (api : GenRequest → GenerateContentResponse) (f garment : File)
    (url pose : String) (dir : Direction) :
    (optStrTruthy key = false →
      initAi key = none ∧
      generateModelImage (initAi key) api f =
        (Except.error GenError.notInitialized, []) ∧
      generateVirtualTryOnImage (initAi key) api url garment =
        (Except.error GenError.notInitialized, []) ∧
      generatePoseVariation (initAi key) api url pose =
        (Except.error GenError.notInitialized, []) ∧
      adjustBodyShape (initAi key) api url dir =
        (Except.error GenError.notInitialized, [])) ∧
    (optStrTruthy key = true →
      (generateModelImage (initAi key) api f).1 ≠
        Except.error GenError.notInitialized ∧
      (generateVirtualTryOnImage (initAi key) api url garment).1 ≠
        Except.error GenError.notInitialized ∧
      (generatePoseVariation (initAi key) api url pose).1 ≠
        Except.error GenError.notInitialized ∧
      (adjustBodyShape (initAi key) api url dir).1 ≠
        Except.error GenError.notInitialized) := by
  constructor
  · intro h
    have hnone : initAi key = none := by
      cases key with
      | none => rfl
      | some k =>
        simp only [optStrTruthy] at h
        rw [bne_eq_false_iff_eq] at h
        simp [initAi, h]
    rw [hnone]
    exact ⟨rfl, rfl, rfl, rfl, rfl⟩
  · intro h
    cases key with
    | none => simp [optStrTruthy] at h
    | some k =>
      simp only [optStrTruthy, bne_iff_ne, ne_eq] at h
      have hsome : initAi (some k) = some ⟨k⟩ := by simp [initAi, h]
      rw [hsome]
      exact ⟨generateModelImage_ne_notInit _ api f,
        generateVirtualTryOnImage_ne_notInit _ api url garment,
        generatePoseVariation_ne_notInit _ api url pose,
        adjustBodyShape_ne_notInit _ api url dir⟩

set_option maxRecDepth 8192 in
/-- C7 witness: both directions of the theorem, at an absent and at a present
credential. -/
theorem apiKey_gates_operations_witness :
    adjustBodyShape (initAi none) (fun _ => ⟨none, none, none⟩) "u"
        Direction.more = (Except.error GenError.notInitialized, []) ∧
    (adjustBodyShape (initAi (some "k")) (fun _ => ⟨none, none, none⟩) "u"
        Direction.more).1 ≠ Except.error GenError.notInitialized :=
  ⟨((apiKey_gates_operations none (fun _ => ⟨none, none, none⟩) ⟨"u"⟩ ⟨"u"⟩
      "u" "p" Direction.more).1 (by decide)).2.2.2.2,
   ((apiKey_gates_operations (some "k") (fun _ => ⟨none, none, none⟩) ⟨"u"⟩
      ⟨"u"⟩ "u" "p" Direction.more).2 (by decide)).2.2.2⟩

/-- C8: with an initialized client and a decodable base image,
`adjustBodyShape` accepts both direction values: the call with "more" and the
call with "less" on the same image each issue exactly one generation call
whose prompt embeds the direction string, and return exactly the normalized
response of that call — no validation rejection in either call (the
operation is stateless, so this holds regardless of prior calls). -/
theorem adjustBodyShape_both_directions (g : GoogleGenAI)
    (api : GenRequest → GenerateContentResponse) (url : String) (p : MimeParts)
    (hurl : dataUrlToParts url = Except.ok p) :
    (adjustBodyShape (some g) api url Direction.more =
        (handleApiResponse (api (adjustReq p Direction.more)),
         [adjustReq p Direction.more]) ∧
      strIncludes (adjustPrompt Direction.more) "more") ∧
    (adjustBodyShape (some g) api url Direction.less =
        (handleApiResponse (api (adjustReq p Direction.less)),
         [adjustReq p Direction.less]) ∧
      strIncludes (adjustPrompt Direction.less) "less") := by
  have hpart : dataUrlToPart url =
      Except.ok (ReqPart.inlineData p.mimeType p.data) := by
    simp [dataUrlToPart, hurl, Except.map]
  refine ⟨⟨?_, ?_⟩, ⟨?_, ?_⟩⟩
  · simp [adjustBodyShape, getInitializedAi, hpart, adjustReq]
  · exact strIncludes_of_append adjustPromptPre "more" adjustPromptPost
  · simp [adjustBodyShape, getInitializedAi, hpart, adjustReq]
  · exact strIncludes_of_append adjustPromptPre "less" adjustPromptPost

set_option maxRecDepth 8192 in
/-- C8 witness: the theorem applied to a concrete decodable data URL. -/
theorem adjustBodyShape_both_directions_witness :
    (adjustBodyShape (some ⟨"k"⟩) (fun _ => ⟨none, none, none⟩)
        "data:image/png;base64,AA" Direction.more =
        (handleApiResponse ((fun _ => ⟨none, none, none⟩)
          (adjustReq ⟨"image/png", "AA"⟩ Direction.more)),
         [adjustReq ⟨"image/png", "AA"⟩ Direction.more]) ∧
      strIncludes (adjustPrompt Direction.more) "more") ∧
    (adjustBodyShape (some ⟨"k"⟩) (fun _ => ⟨none, none, none⟩)
        "data:image/png;base64,AA" Direction.less =
        (handleApiResponse ((fun _ => ⟨none, none, none⟩)
          (adjustReq ⟨"image/png", "AA"⟩ Direction.less)),
         [adjustReq ⟨"image/png", "AA"⟩ Direction.less]) ∧
      strIncludes (adjustPrompt Direction.less) "less") :=
  adjustBodyShape_both_directions ⟨"k"⟩ (fun _ => ⟨none, none, none⟩)
    "data:image/png;base64,AA" ⟨"image/png", "AA"⟩ (by decide)

/-- C9: on the start screen, when a model generation or a body adjustment is
in flight, or no generated model image exists (JS-truthily), the
body-adjustment handler returns with the state unchanged and issues no
generation call — hence a new adjustment can never start while one is in
flight. -/
theorem handleBodyAdjustment_guarded (friendly : GenError → String → String)
    (adjust : String → Direction → Except GenError String)
    (s : StartScreenState) (dir : Direction)
    (h : optStrTruthy s.generatedModelUrl = false ∨ s.isGenerating = true ∨
      s.isAdjusting = true) :
    handleBodyAdjustment friendly adjust s dir = (s, 0) := by
  unfold handleBodyAdjustment
  rcases h with h | h | h <;> rw [h] <;> simp

/-- C9 witness: the theorem applied to a state with an adjustment in
flight. -/
theorem handleBodyAdjustment_guarded_witness :
    handleBodyAdjustment (fun _ fb => fb)
      (fun _ _ => Except.error GenError.invalidDataUrl)
      ⟨none, some "data:x", false, true, none⟩ Direction.more =
      (⟨none, some "data:x", false, true, none⟩, 0) :=
  handleBodyAdjustment_guarded _ _ _ _ (Or.inr (Or.inr rfl))

/-- C10: when the guard passes and the body-adjustment service call rejects,
the handler leaves the current model image unchanged, sets the error message
from the rejection (mapped with the fallback "Failed to adjust body shape"),
resets the adjusting flag to false, and issued exactly one generation call —
the displayed image changes only on success. -/
theorem handleBodyAdjustment_failure_atomic
    (friendly : GenError → String → String)
    (adjust : String → Direction → Except GenError String)
    (s : StartScreenState) (dir : Direction) (url : String) (e : GenError)
    (hurl : s.generatedModelUrl = some url) (hne : url ≠ "")
    (hgen : s.isGenerating = false) (hadj : s.isAdjusting = false)
    (hcall : adjust url dir = Except.error e) :
    (handleBodyAdjustment friendly adjust s dir).1.generatedModelUrl =
      s.generatedModelUrl ∧
    (handleBodyAdjustment friendly adjust s dir).1.error =
      some (friendly e "Failed to adjust body shape") ∧
    (handleBodyAdjustment friendly adjust s dir).1.isAdjusting = false ∧
    (handleBodyAdjustment friendly adjust s dir).2 = 1 := by
  unfold handleBodyAdjustment
  rw [hurl, hgen, hadj]
  simp [optStrTruthy, hne, hcall, hurl]

/-- C10 witness: the theorem applied to a concrete state and a service that
rejects with the malformed-input error. -/
theorem handleBodyAdjustment_failure_atomic_witness :
    (handleBodyAdjustment (fun _ fb => fb)
        (fun _ _ => Except.error GenError.badMime)
        ⟨some "u", some "data:img", false, false, none⟩ Direction.more).1.generatedModelUrl =
      (⟨some "u", some "data:img", false, false, none⟩ : StartScreenState).generatedModelUrl ∧
    (handleBodyAdjustment (fun _ fb => fb)
        (fun _ _ => Except.error GenError.badMime)
        ⟨some "u", some "data:img", false, false, none⟩ Direction.more).1.error =
      some ((fun _ fb => fb) GenError.badMime "Failed to adjust body shape") ∧
    (handleBodyAdjustment (fun _ fb => fb)
        (fun _ _ => Except.error GenError.badMime)
        ⟨some "u", some "data:img", false, false, none⟩ Direction.more).1.isAdjusting = false ∧
    (handleBodyAdjustment (fun _ fb => fb)
        (fun _ _ => Except.error GenError.badMime)
        ⟨some "u", some "data:img", false, false, none⟩ Direction.more).2 = 1 :=
  handleBodyAdjustment_failure_atomic (fun _ fb => fb)
    (fun _ _ => Except.error GenError.badMime)
    ⟨some "u", some "data:img", false, false, none⟩ Direction.more "data:img"
    GenError.badMime rfl (by decide) rfl rfl rfl

end MariFit
